import Mathlib

/-!
Verification of the PhaseTwoAnalysis selection/classification engine
(`src/Muons/plugins/PatMuonFilter.cc`: classes `PatMuonFilter` and
`MiniFromPat`).

Shallow embedding conventions:
* Finite floating-point values are modelled as exact rationals (`ℚ`).
  Where IEEE non-finite values matter (the electron `ecalEnergy`, the ME0
  pull computation), a value is an `Dbl`: a finite rational, `nan`, `pinf`
  or `ninf`, with IEEE comparison semantics (`nan` compares false, a
  division by a zero denominator yields `nan` or an infinity).
* External library calls of the source (`reco::deltaR`,
  `ROOT::Math::VectorUtil::DeltaR`, `atan`, `std::sqrt`, the ME0 geometry
  lookup `toGlobal` / `computeDeltaPhi`, the standard muon identification
  predicates `muon::isLooseMuon` / `isMediumMuon` / `isTightMuon`,
  `ConversionTools::hasMatchedConversion`, puppi isolation accessors) are
  not part of this repository; they enter the embedding as oracle
  functions (the `Oracle` record, function-valued muon fields), constrained
  only where a claim depends on their behaviour (`SqrtSpec` for IEEE
  `sqrt`).
-/

/-! ## IEEE-lite value model for the doubles whose non-finiteness matters -/

/-- A double: a finite (exact) rational, or one of the IEEE specials. -/
inductive Dbl where
  | fin (q : ℚ)
  | nan
  | pinf
  | ninf
deriving DecidableEq, Repr

/-- `x == 0` on a double: IEEE compares `nan` and the infinities unequal
to zero. -/
def Dbl.eqZero : Dbl → Bool
  | .fin q => q == 0
  | _ => false

/-- `std::isfinite`. -/
def Dbl.isFinite : Dbl → Bool
  | .fin _ => true
  | _ => false

/-- The rational payload of a finite value (0 for the specials; only used
under a finiteness guard, as in the source). -/
def Dbl.toRat : Dbl → ℚ
  | .fin q => q
  | _ => 0

/-- IEEE `x < c` against a finite cut `c`: false whenever `x` is `nan` or
`+inf`. -/
def Dbl.ltQ : Dbl → ℚ → Bool
  | .fin q, c => decide (q < c)
  | .nan, _ => false
  | .pinf, _ => false
  | .ninf, _ => true

/-- IEEE division of a finite numerator by a double: a zero denominator
gives `nan` (0/0) or a signed infinity, a `nan` denominator propagates,
an infinite denominator gives 0. -/
def Dbl.divQ (q : ℚ) : Dbl → Dbl
  | .fin d =>
      if d = 0 then (if q = 0 then .nan else if 0 < q then .pinf else .ninf)
      else .fin (q / d)
  | .nan => .nan
  | .pinf => .fin 0
  | .ninf => .fin 0

/-- What the embedding assumes of the C library's `sqrt` on doubles:
negative arguments give `nan`, zero gives zero, positive arguments give
some non-negative finite value.  Every theorem that involves `sqrt` is
proved for all conforming functions. -/
def SqrtSpec (f : ℚ → Dbl) : Prop :=
  (∀ s : ℚ, s < 0 → f s = Dbl.nan) ∧ f 0 = Dbl.fin 0 ∧
    ∀ s : ℚ, 0 < s → ∃ q : ℚ, 0 ≤ q ∧ f s = Dbl.fin q

/-! ## Data model (§3 of the source's collections) -/

/-- A four-momentum as the source reads it back from a candidate
(`pt`, `eta`, `phi`, `mass`). -/
structure P4 where
  pt : ℚ
  eta : ℚ
  phi : ℚ
  mass : ℚ
deriving DecidableEq, Repr

/-- `reco::Vertex`: the fields the source reads. -/
structure Vertex where
  isFake : Bool
  ndof : ℚ
  px : ℚ
  py : ℚ
  pz : ℚ
deriving DecidableEq, Repr

/-- `reco::MuonSegmentMatch` (an entry of `chamber->me0Matches`). -/
structure SegmentMatch where
  x : ℚ
  y : ℚ
  xErr : ℚ
  yErr : ℚ
  dXdZ : ℚ
deriving DecidableEq, Repr

/-- `reco::MuonChamberMatch`: the fields the ME0 matchers read. -/
structure ChamberMatch where
  x : ℚ
  y : ℚ
  xErr : ℚ
  yErr : ℚ
  dXdZ : ℚ
  dYdZ : ℚ
  detector : Int
  chamberId : Nat
  me0Matches : List SegmentMatch
deriving DecidableEq, Repr

/-- `pat::Muon` (and its `reco::Muon` base): the fields the source reads.
`stdLoose`/`stdMedium` stand for the external `muon::isLooseMuon` /
`muon::isMediumMuon` outcomes; `stdTightAt v` for `muon::isTightMuon`
at vertex `v`; `dxyAt`/`dzAt` for the best-track impact parameters at a
vertex position. -/
structure Muon where
  pt : ℚ
  eta : ℚ
  phi : ℚ
  mass : ℚ
  p : ℚ
  charge : Int
  stdLoose : Bool
  stdMedium : Bool
  stdTightAt : Vertex → Bool
  innerTrackNonnull : Bool
  dxyAt : Vertex → ℚ
  dzAt : Vertex → ℚ
  numberOfValidPixelHits : Int
  highPurity : Bool
  isME0Muon : Bool
  chamberMatches : List ChamberMatch
  puppiNoLepChHadIso : ℚ
  puppiNoLepNeuHadIso : ℚ
  puppiNoLepPhoIso : ℚ

/-- The four-momentum `muon.p4()`. -/
def Muon.p4 (m : Muon) : P4 := ⟨m.pt, m.eta, m.phi, m.mass⟩

/-- `pat::Electron`: the fields the electron identification reads.
`hasMatchedConversion` stands for the external
`ConversionTools::hasMatchedConversion(patEl, conversions,
beamspot.position())` outcome for the event's fixed conversion
collection and beamspot. -/
structure Elec where
  pt : ℚ
  eta : ℚ
  phi : ℚ
  mass : ℚ
  charge : Int
  superClusterEta : ℚ
  full5x5SigmaIetaIeta : ℚ
  deltaEtaSuperClusterTrackAtVtx : ℚ
  deltaPhiSuperClusterTrackAtVtx : ℚ
  hcalOverEcal : ℚ
  sumChargedHadronPt : ℚ
  ecalEnergy : Dbl
  eSuperClusterOverP : ℚ
  hasMatchedConversion : Bool
  puppiNoLepChHadIso : ℚ
  puppiNoLepNeuHadIso : ℚ
  puppiNoLepPhoIso : ℚ
deriving Repr

/-- The four-momentum `elec.p4()`. -/
def Elec.p4 (e : Elec) : P4 := ⟨e.pt, e.eta, e.phi, e.mass⟩

/-- `pat::PackedGenParticle`: the fields the generator-level extraction
reads. -/
structure GenPart where
  pdgId : Int
  pt : ℚ
  eta : ℚ
  phi : ℚ
  mass : ℚ
deriving DecidableEq, Repr

/-- The four-momentum `genPart.p4()`. -/
def GenPart.p4 (g : GenPart) : P4 := ⟨g.pt, g.eta, g.phi, g.mass⟩

/-- `reco::GenJet`: kinematics plus the constituents returned by
`getJetConstituentsQuick()` (each read only through `p4()` and `pt()`). -/
structure GenJet where
  pt : ℚ
  eta : ℚ
  phi : ℚ
  mass : ℚ
  pdgId : Int
  constituents : List P4
deriving DecidableEq, Repr

/-- The four-momentum `genJet.p4()`. -/
def GenJet.p4 (g : GenJet) : P4 := ⟨g.pt, g.eta, g.phi, g.mass⟩

/-- `pat::Jet`: the fields the jet loop reads. -/
structure Jet where
  pt : ℚ
  eta : ℚ
  phi : ℚ
  mass : ℚ
deriving DecidableEq, Repr

/-- The four-momentum `jet.p4()`. -/
def Jet.p4 (j : Jet) : P4 := ⟨j.pt, j.eta, j.phi, j.mass⟩

/-- `pat::PackedCandidate`: the fields the PF-lepton loop reads. -/
structure PFCand where
  pdgId : Int
  pt : ℚ
  eta : ℚ
  phi : ℚ
  mass : ℚ
  trackHighPurity : Bool
deriving DecidableEq, Repr

/-- The four-momentum `pfCand.p4()`. -/
def PFCand.p4 (c : PFCand) : P4 := ⟨c.pt, c.eta, c.phi, c.mass⟩

/-- The external mathematical/geometry collaborators of the source, as
oracle functions:
* `dR eta1 phi1 eta2 phi2` — `reco::deltaR`,
* `dRP4 a b` — `ROOT::Math::VectorUtil::DeltaR(a, b)`,
* `atanQ` — the C library's `atan` (always finite),
* `sqrtFP` — the C library's `sqrt` on doubles (see `SqrtSpec`),
* `geoEta id x y` / `geoPhi id x y` — `eta()`/`phi()` of
  `ME0Geometry_->chamber(id)->toGlobal(LocalPoint(x, y, 0))`,
* `geoDPhi id x y dXdZ dYdZ` —
  `chamber->computeDeltaPhi(LocalPoint(x, y, 0), LocalVector(dXdZ, dYdZ, 1))`. -/
structure Oracle where
  dR : ℚ → ℚ → ℚ → ℚ → ℚ
  dRP4 : P4 → P4 → ℚ
  atanQ : ℚ → ℚ
  sqrtFP : ℚ → Dbl
  geoEta : Nat → ℚ → ℚ → ℚ
  geoPhi : Nat → ℚ → ℚ → ℚ
  geoDPhi : Nat → ℚ → ℚ → ℚ → ℚ → ℚ

/-! ## Primary-vertex selection

Both `PatMuonFilter::produce` (lines 131-136) and
`MiniFromPat::recoAnalysis` (lines 655-660) run the same loop:
`prVtx = -1; for i: if fake continue; if ndof <= 4 continue;
if (prVtx < 0) prVtx = i;`. -/

/-- The vertex loop body, with the running index and the `prVtx`
accumulator made explicit. -/
def vtxLoop : List Vertex → Nat → Int → Int
  | [], _, prVtx => prVtx
  | v :: vs, i, prVtx =>
      if v.isFake then vtxLoop vs (i + 1) prVtx
      else if v.ndof ≤ 4 then vtxLoop vs (i + 1) prVtx
      else if prVtx < 0 then vtxLoop vs (i + 1) (i : Int)
      else vtxLoop vs (i + 1) prVtx

/-- The selected primary-vertex index (sentinel `-1`). -/
def primaryVtxIdx (vs : List Vertex) : Int := vtxLoop vs 0 (-1)

/-! ## Electron identification (`MiniFromPat::isLooseElec` /
`isMediumElec` / `isTightElec`, lines 816-869) -/

/-- The energy-momentum consistency variable, computed identically
(inline) in each of the three electron tier functions:
`Ooemoop = 999; if (ecalEnergy == 0) Ooemoop = 0; else if
(!isfinite(ecalEnergy)) Ooemoop = 998; else Ooemoop =
fabs(1/ecalEnergy - eSuperClusterOverP/ecalEnergy)`. -/
def elecOoemoop (e : Elec) : ℚ :=
  if e.ecalEnergy.eqZero then 0
  else if !e.ecalEnergy.isFinite then 998
  else |1 / e.ecalEnergy.toRat - e.eSuperClusterOverP / e.ecalEnergy.toRat|

/-- `MiniFromPat::isLooseElec` (lines 816-831). -/
def isLooseElec (e : Elec) : Bool :=
  if |e.superClusterEta| > 1.479 ∧ |e.superClusterEta| < 1.556 then false
  else if e.full5x5SigmaIetaIeta > 0.02992 then false
  else if |e.deltaEtaSuperClusterTrackAtVtx| > 0.004119 then false
  else if |e.deltaPhiSuperClusterTrackAtVtx| > 0.05176 then false
  else if e.hcalOverEcal > 6.741 then false
  else if e.sumChargedHadronPt / e.pt > 2.5 then false
  else if elecOoemoop e > 73.76 then false
  else if e.hasMatchedConversion then false
  else true

/-- `MiniFromPat::isMediumElec` (lines 835-850). -/
def isMediumElec (e : Elec) : Bool :=
  if |e.superClusterEta| > 1.479 ∧ |e.superClusterEta| < 1.556 then false
  else if e.full5x5SigmaIetaIeta > 0.01609 then false
  else if |e.deltaEtaSuperClusterTrackAtVtx| > 0.001766 then false
  else if |e.deltaPhiSuperClusterTrackAtVtx| > 0.03130 then false
  else if e.hcalOverEcal > 7.371 then false
  else if e.sumChargedHadronPt / e.pt > 1.325 then false
  else if elecOoemoop e > 22.6 then false
  else if e.hasMatchedConversion then false
  else true

/-- `MiniFromPat::isTightElec` (lines 854-869). -/
def isTightElec (e : Elec) : Bool :=
  if |e.superClusterEta| > 1.479 ∧ |e.superClusterEta| < 1.556 then false
  else if e.full5x5SigmaIetaIeta > 0.01614 then false
  else if |e.deltaEtaSuperClusterTrackAtVtx| > 0.001322 then false
  else if |e.deltaPhiSuperClusterTrackAtVtx| > 0.06129 then false
  else if e.hcalOverEcal > 4.492 then false
  else if e.sumChargedHadronPt / e.pt > 1.255 then false
  else if elecOoemoop e > 18.26 then false
  else if e.hasMatchedConversion then false
  else true

/-! ## ME0 momentum-dependent cut clamps (`PatMuonFilter::produce`,
lines 164-166 and 180-181) -/

/-- Loose/medium `dPhiCut_ = std::min(std::max(1.2/mom, 1.2/100), 0.056)`. -/
def looseDPhiCut (mom : ℚ) : ℚ := min (max (1.2 / mom) (1.2 / 100)) 0.056

/-- Loose/medium `dPhiBendCut_ = std::min(std::max(0.2/mom, 0.2/100), 0.0096)`. -/
def looseDPhiBendCut (mom : ℚ) : ℚ := min (max (0.2 / mom) (0.2 / 100)) 0.0096

/-- Tight `dPhiCut_ = std::min(std::max(1.2/mom, 1.2/100), 0.032)`. -/
def tightDPhiCut (mom : ℚ) : ℚ := min (max (1.2 / mom) (1.2 / 100)) 0.032

/-- Tight `dPhiBendCut_ = std::min(std::max(0.2/mom, 0.2/100), 0.0041)`. -/
def tightDPhiBendCut (mom : ℚ) : ℚ := min (max (0.2 / mom) (0.2 / 100)) 0.0041

/-! ## ME0 spatial matchers

`PatMuonFilter::isME0MuonSel` (lines 233-276) and
`MiniFromPat::isME0MuonSel` (lines 873-916) are textually identical; they
are embedded once.  `PatMuonFilter::isME0MuonSelNew` is at lines 278-326. -/

/-- The five mutable variables of `isME0MuonSel`
(`deltaX`, `deltaY`, `pullX`, `pullY`, `deltaPhi`), initialised to 999. -/
structure SelState where
  deltaX : ℚ
  deltaY : ℚ
  pullX : Dbl
  pullY : Dbl
  deltaPhi : ℚ
deriving Repr

/-- The initial `SelState` (all five variables set to 999). -/
def selInit : SelState := ⟨999, 999, .fin 999, .fin 999, 999⟩

/-- One assignment block of the `isME0MuonSel` loop body (run when
`chamber->detector() == 5`): all five variables are overwritten from the
current (chamber, segment) pair. -/
def selAssign (E : Oracle) (c : ChamberMatch) (s : SegmentMatch) : SelState :=
  { deltaX := |c.x - s.x|
    deltaY := |c.y - s.y|
    pullX := Dbl.divQ |c.x - s.x| (E.sqrtFP (c.xErr + s.xErr))
    pullY := Dbl.divQ |c.y - s.y| (E.sqrtFP (c.yErr + s.yErr))
    deltaPhi := |E.atanQ c.dXdZ - E.atanQ s.dXdZ| }

/-- `isME0MuonSel` (pull/distance variant): the nested chamber/segment
loops overwrite the `SelState`, and the cut comparisons run once after
both loops. -/
def isME0MuonSel (E : Oracle) (m : Muon)
    (pullXCut dXCut pullYCut dYCut dPhi : ℚ) : Bool :=
  if m.isME0Muon then
    let st := m.chamberMatches.foldl (fun st c =>
      c.me0Matches.foldl (fun st s =>
        if c.detector = 5 then selAssign E c s else st) st) selInit
    let xMatchFound := st.pullX.ltQ pullXCut || decide (st.deltaX < dXCut)
    let yMatchFound := st.pullY.ltQ pullYCut || decide (st.deltaY < dYCut)
    let dirMatchFound := decide (st.deltaPhi < dPhi)
    xMatchFound && yMatchFound && dirMatchFound
  else false

/-- One (chamber, segment) test of `isME0MuonSelNew` (lines 297-316):
global-coordinate residuals and the bend angle against the three cuts. -/
def selNewPass (E : Oracle) (c : ChamberMatch) (s : SegmentMatch)
    (dEtaCut dPhiCut dPhiBendCut : ℚ) : Bool :=
  let segDPhi := |E.atanQ c.dXdZ - E.atanQ s.dXdZ|
  let trackDPhi := E.geoDPhi c.chamberId c.x c.y c.dXdZ c.dYdZ
  let deltaEta := |E.geoEta c.chamberId c.x c.y - E.geoEta c.chamberId s.x s.y|
  let deltaPhi := |E.geoPhi c.chamberId c.x c.y - E.geoPhi c.chamberId s.x s.y|
  let deltaPhiBend := |segDPhi - trackDPhi|
  decide (deltaEta < dEtaCut) && decide (deltaPhi < dPhiCut) &&
    decide (deltaPhiBend < dPhiBendCut)

/-- `PatMuonFilter::isME0MuonSelNew` (angle/eta variant): `result` is set
to true inside the loops as soon as one (chamber, segment) pair of an
ME0 chamber passes all three cuts, and never reset. -/
def isME0MuonSelNew (E : Oracle) (m : Muon)
    (dEtaCut dPhiCut dPhiBendCut : ℚ) : Bool :=
  if m.isME0Muon then
    m.chamberMatches.foldl (fun result c =>
      if c.detector = 5 then
        c.me0Matches.foldl (fun result s =>
          if selNewPass E c s dEtaCut dPhiCut dPhiBendCut then true else result)
          result
      else result) false
  else false

/-! ## `PatMuonFilter::produce` (lines 125-218) -/

/-- `vertices->at(i)` for an `int` index: `std::vector::at` converts the
index to `size_t` and throws `std::out_of_range` when it is not a valid
position — in particular for every negative index. -/
def vtxAt (vs : List Vertex) (i : Int) : Except Unit Vertex :=
  if h : 0 ≤ i ∧ i.toNat < vs.length then .ok (vs.get ⟨i.toNat, h.2⟩)
  else .error ()

/-- The track-quality requirements of lines 169-175: set only when
`muon.innerTrack().isNonnull()`. -/
def muonTrackReqs (m : Muon) (priVertex : Vertex) : Bool × Bool × Bool × Bool :=
  if m.innerTrackNonnull then
    (decide (|m.dxyAt priVertex| < 0.2), decide (|m.dzAt priVertex| < 0.5),
     decide (m.numberOfValidPixelHits > 0), m.highPurity)
  else (false, false, false, false)

/-- The forward (ME0) loose predicate of the filter (line 167). -/
def filterLooseME0 (E : Oracle) (m : Muon) : Bool :=
  isME0MuonSelNew E m 0.077 (looseDPhiCut m.p) (looseDPhiBendCut m.p)

/-- The forward (ME0) medium predicate of the filter (line 177):
loose ME0 plus the transverse impact parameter, pixel-hit and
high-purity requirements. -/
def filterMediumME0 (E : Oracle) (m : Muon) (priVertex : Vertex) : Bool :=
  let r := muonTrackReqs m priVertex
  isME0MuonSelNew E m 0.077 (looseDPhiCut m.p) (looseDPhiBendCut m.p) &&
    r.1 && r.2.2.1 && r.2.2.2

/-- The forward (ME0) tight predicate of the filter (line 182): tighter
clamped cuts plus all four track requirements. -/
def filterTightME0 (E : Oracle) (m : Muon) (priVertex : Vertex) : Bool :=
  let r := muonTrackReqs m priVertex
  isME0MuonSelNew E m 0.048 (tightDPhiCut m.p) (tightDPhiBendCut m.p) &&
    r.1 && r.2.1 && r.2.2.1 && r.2.2.2

/-- Line 186: a muon joins the loose output iff
`isLoose || (fabs(eta) > 2.4 && isLooseME0)`. -/
def filterLoosePass (E : Oracle) (m : Muon) : Bool :=
  m.stdLoose || (decide (|m.eta| > 2.4) && filterLooseME0 E m)

/-- Line 191: a muon joins the medium output iff
`isMedium || (fabs(eta) > 2.4 && isMediumME0)`. -/
def filterMediumPass (E : Oracle) (m : Muon) (priVertex : Vertex) : Bool :=
  m.stdMedium || (decide (|m.eta| > 2.4) && filterMediumME0 E m priVertex)

/-- Line 196: a muon joins the tight output iff
`isTight || (fabs(eta) > 2.4 && isTightME0)` where
`isTight = (prVtx > -0.5 && muon::isTightMuon(muon, priVertex))`. -/
def filterTightPass (E : Oracle) (m : Muon) (priVertex : Vertex)
    (prVtx : Int) : Bool :=
  (decide ((prVtx : ℚ) > -0.5) && m.stdTightAt priVertex) ||
    (decide (|m.eta| > 2.4) && filterTightME0 E m priVertex)

/-- `muon.puppiNoLeptonsChargedHadronIso() + ... NeutralHadronIso() +
... PhotonIso()) / muon.pt()` (line 184). -/
def muonRelIso (m : Muon) : ℚ :=
  (m.puppiNoLepChHadIso + m.puppiNoLepNeuHadIso + m.puppiNoLepPhoIso) / m.pt

/-- The six output collections of `PatMuonFilter::produce`. -/
structure FilterOut where
  looseMuons : List Muon
  looseIso : List ℚ
  mediumMuons : List Muon
  mediumIso : List ℚ
  tightMuons : List Muon
  tightIso : List ℚ

/-- The empty `FilterOut`. -/
def FilterOut.empty : FilterOut := ⟨[], [], [], [], [], []⟩

/-- The body of the muon loop of `PatMuonFilter::produce` (lines
153-201) for one muon.  Note line 157 fetches `vertices->at(prVtx)`
before any use, after only the kinematic preselection: with no valid
primary vertex (`prVtx == -1`) this throws. -/
def produceStep (E : Oracle) (vertices : List Vertex) (prVtx : Int)
    (out : FilterOut) (m : Muon) : Except Unit FilterOut :=
  if m.pt < 2 then .ok out
  else if |m.eta| > 3 then .ok out
  else do
    let priVertex ← vtxAt vertices prVtx
    let relIso := muonRelIso m
    let out :=
      if filterLoosePass E m then
        { out with looseMuons := out.looseMuons ++ [m],
                   looseIso := out.looseIso ++ [relIso] }
      else out
    let out :=
      if filterMediumPass E m priVertex then
        { out with mediumMuons := out.mediumMuons ++ [m],
                   mediumIso := out.mediumIso ++ [relIso] }
      else out
    let out :=
      if filterTightPass E m priVertex prVtx then
        { out with tightMuons := out.tightMuons ++ [m],
                   tightIso := out.tightIso ++ [relIso] }
      else out
    .ok out

/-- `PatMuonFilter::produce`: select the primary vertex, then filter the
muons into the three tier collections with parallel isolation vectors.
An uncaught `std::out_of_range` from `vertices->at` is the `.error`
case. -/
def produceFilter (E : Oracle) (vertices : List Vertex)
    (muons : List Muon) : Except Unit FilterOut :=
  let prVtx := primaryVtxIdx vertices
  muons.foldlM (produceStep E vertices prVtx) FilterOut.empty

/-! ## `MiniFromPat::genAnalysis` (lines 560-623) -/

/-- The generator-jet/lepton overlap test of lines 577-584: a generator
jet overlaps when some generator lepton (|pdgId| 11 or 13) has
`|jet.pt - part.pt| < 0.01 * part.pt` and `DeltaR(part.p4, jet.p4) < 0.01`
(the source sets a flag and breaks on the first hit). -/
def genJetOverlaps (E : Oracle) (genParts : List GenPart) (gj : GenJet) : Bool :=
  genParts.any (fun gp =>
    (decide (|gp.pdgId| = 11) || decide (|gp.pdgId| = 13)) &&
    decide (|gj.pt - gp.pt| < 0.01 * gp.pt) &&
    decide (E.dRP4 gp.p4 gj.p4 < 0.01))

/-- The generator jets kept by lines 573-586: `pt >= 20`, `|eta| <= 5`,
not overlapping a generator lepton (an overlapping jet is excluded
entirely). -/
def genJetsSelected (E : Oracle) (genParts : List GenPart)
    (genJets : List GenJet) : List GenJet :=
  genJets.filter (fun gj =>
    !decide (gj.pt < 20) && !decide (|gj.eta| > 5) && !genJetOverlaps E genParts gj)

/-- The generator-lepton isolation sum of lines 602-614: over the kept
generator jets within `DeltaR <= 0.7` of the lepton, add the `pt` of each
jet constituent unless it is the lepton itself (`deltaR < 0.01`) or
outside the type-dependent cone (muon: skip `deltaR > 0.4`; electron:
skip `deltaR > 0.3`); finally divide by the lepton `pt`. -/
def genIsoOf (E : Oracle) (gp : GenPart) (selJets : List GenJet) : ℚ :=
  (selJets.foldl (fun genIso gj =>
    if E.dRP4 gp.p4 gj.p4 > 0.7 then genIso
    else gj.constituents.foldl (fun genIso c =>
      let deltaR := E.dRP4 gp.p4 c
      if deltaR < 0.01 then genIso
      else if |gp.pdgId| = 13 ∧ deltaR > 0.4 then genIso
      else if |gp.pdgId| = 11 ∧ deltaR > 0.3 then genIso
      else genIso + c.pt) genIso) 0) / gp.pt

/-- One generator-lepton output entry (`gl_*` arrays). -/
structure GlRec where
  pid : Int
  pt : ℚ
  phi : ℚ
  eta : ℚ
  mass : ℚ
  relIso : ℚ
deriving Repr

/-- One generator-jet output entry (`gj_*` arrays). -/
structure GjRec where
  pt : ℚ
  phi : ℚ
  eta : ℚ
  mass : ℚ
  pid : Int
deriving Repr

/-- The per-event output of `genAnalysis`. -/
structure GenOut where
  gj : List GjRec
  gl : List GlRec

/-- The empty generator-level record. -/
def GenOut.empty : GenOut := ⟨[], []⟩

/-- `MiniFromPat::genAnalysis`: kept generator jets, then generator
leptons (`|pdgId|` 11 or 13, `pt >= 10`, `|eta| <= 3`) with their
isolation computed against the kept jets. -/
def genAnalysisModel (E : Oracle) (genParts : List GenPart)
    (genJets : List GenJet) : GenOut :=
  let selJets := genJetsSelected E genParts genJets
  { gj := selJets.map (fun gj => ⟨gj.pt, gj.phi, gj.eta, gj.mass, gj.pdgId⟩)
    gl := (genParts.filter (fun gp =>
        (decide (|gp.pdgId| = 11) || decide (|gp.pdgId| = 13)) &&
        !decide (gp.pt < 10) && !decide (|gp.eta| > 3))).map (fun gp =>
      ⟨gp.pdgId, gp.pt, gp.phi, gp.eta, gp.mass, genIsoOf E gp selJets⟩) }

/-! ## `MiniFromPat::recoAnalysis` (lines 627-794) -/

/-- The reconstructed-lepton to generator-lepton association loop
(lines 680-684 for muons, 703-707 for electrons): iterate the generator
leptons, skip a different `|pid|` or `deltaR > 0.4`, and overwrite the
stored index on every remaining entry (last match wins; sentinel -1). -/
def lepGenMatchLoop (E : Oracle) (lpid : Int) (leta lphi : ℚ) :
    List GlRec → Nat → Int → Int
  | [], _, lg => lg
  | g :: gs, ig, lg =>
      if |g.pid| ≠ |lpid| then lepGenMatchLoop E lpid leta lphi gs (ig + 1) lg
      else if E.dR g.eta g.phi leta lphi > 0.4 then
        lepGenMatchLoop E lpid leta lphi gs (ig + 1) lg
      else lepGenMatchLoop E lpid leta lphi gs (ig + 1) (ig : Int)

/-- The lepton generator association index (`ev_.l_g`), starting from -1. -/
def lepGenMatch (E : Oracle) (lpid : Int) (leta lphi : ℚ)
    (gls : List GlRec) : Int :=
  lepGenMatchLoop E lpid leta lphi gls 0 (-1)

/-- The jet to generator-jet association loop (lines 751-756): iterate
the generator jets, skip `deltaR > 0.4`, store the index and break on
the first remaining entry (first match wins; sentinel -1). -/
def jetGenMatchLoop (E : Oracle) (jeta jphi : ℚ) :
    List GjRec → Nat → Int
  | [], _ => -1
  | g :: gs, ig =>
      if E.dR g.eta g.phi jeta jphi > 0.4 then jetGenMatchLoop E jeta jphi gs (ig + 1)
      else (ig : Int)

/-- The jet generator association index (`ev_.j_g`). -/
def jetGenMatch (E : Oracle) (jeta jphi : ℚ) (gjs : List GjRec) : Int :=
  jetGenMatchLoop E jeta jphi gjs 0

/-- Reconstructed-muon loose tier of line 669:
`(fabs(eta) < 2.4 && muon::isLooseMuon) ||
(fabs(eta) > 2.4 && isME0MuonSel(muon, 3, 4, 3, 4, 0.5))`. -/
def recoMuonLoose (E : Oracle) (m : Muon) : Bool :=
  (decide (|m.eta| < 2.4) && m.stdLoose) ||
    (decide (|m.eta| > 2.4) && isME0MuonSel E m 3 4 3 4 0.5)

/-- Reconstructed-muon medium tier of line 670. -/
def recoMuonMedium (E : Oracle) (m : Muon) : Bool :=
  (decide (|m.eta| < 2.4) && m.stdMedium) ||
    (decide (|m.eta| > 2.4) && isME0MuonSel E m 3 4 3 4 0.3)

/-- Reconstructed-muon tight tier of line 671 (the standard leg also
requires a non-empty vertex collection and uses the primary vertex). -/
def recoMuonTight (E : Oracle) (vertices : List Vertex) (priVertex : Vertex)
    (m : Muon) : Bool :=
  (decide (|m.eta| < 2.4) && decide (vertices.length > 0) &&
      m.stdTightAt priVertex) ||
    (decide (|m.eta| > 2.4) && isME0MuonSel E m 3 4 3 4 0.1)

/-- One reconstructed-lepton output entry (`l_*` arrays). -/
structure LepRec where
  id : Nat
  pid : Int
  pt : ℚ
  phi : ℚ
  eta : ℚ
  relIso : ℚ
  g : Int
deriving Repr

/-- The identifier bitmask `(isTight | (isMedium << 1) | (isLoose << 2))`. -/
def idMask (isTight isMedium isLoose : Bool) : Nat :=
  (cond isTight 1 0) ||| ((cond isMedium 1 0) <<< 1) ||| ((cond isLoose 1 0) <<< 2)

/-- `elec.puppiNoLeptons*Iso()` sum over `pt` (line 701). -/
def elecRelIso (e : Elec) : ℚ :=
  (e.puppiNoLepChHadIso + e.puppiNoLepNeuHadIso + e.puppiNoLepPhoIso) / e.pt

/-- The muon part of the reconstructed-lepton loop (lines 665-686). -/
def recoMuonRecs (E : Oracle) (vertices : List Vertex) (priVertex : Vertex)
    (gls : List GlRec) (muons : List Muon) : List LepRec :=
  (muons.filter (fun m => !decide (m.pt < 10) && !decide (|m.eta| > 3))).map
    (fun m =>
      { id := idMask (recoMuonTight E vertices priVertex m)
          (recoMuonMedium E m) (recoMuonLoose E m)
        pid := m.charge * 13
        pt := m.pt
        phi := m.phi
        eta := m.eta
        relIso := muonRelIso m
        g := lepGenMatch E (m.charge * 13) m.eta m.phi gls })

/-- The electron part of the reconstructed-lepton loop (lines 688-709). -/
def recoElecRecs (E : Oracle) (gls : List GlRec) (elecs : List Elec) :
    List LepRec :=
  (elecs.filter (fun e => !decide (e.pt < 10) && !decide (|e.eta| > 3))).map
    (fun e =>
      { id := idMask (isTightElec e) (isMediumElec e) (isLooseElec e)
        pid := e.charge * 11
        pt := e.pt
        phi := e.phi
        eta := e.eta
        relIso := elecRelIso e
        g := lepGenMatch E (e.charge * 11) e.eta e.phi gls })

/-- The jet/lepton overlap removal of lines 717-731: drop the jet when
some electron, or some muon, has `|jet.pt - lep.pt| < 0.01 * lep.pt` and
`DeltaR(lep.p4, jet.p4) < 0.01` (flag set, break on first hit). -/
def jetOverlapsLepton (E : Oracle) (elecs : List Elec) (muons : List Muon)
    (j : Jet) : Bool :=
  elecs.any (fun el =>
    decide (|j.pt - el.pt| < 0.01 * el.pt) && decide (E.dRP4 el.p4 j.p4 < 0.01)) ||
  muons.any (fun mu =>
    decide (|j.pt - mu.pt| < 0.01 * mu.pt) && decide (E.dRP4 mu.p4 j.p4 < 0.01))

/-- One reconstructed-jet output entry (the `j_*` fields the claims
touch). -/
structure JetRec where
  pt : ℚ
  phi : ℚ
  eta : ℚ
  mass : ℚ
  g : Int
deriving Repr

/-- The jet loop of lines 712-759: kinematic cuts, overlap removal
against both lepton collections, then first-match generator-jet
association. -/
def recoJetRecs (E : Oracle) (elecs : List Elec) (muons : List Muon)
    (gjs : List GjRec) (jets : List Jet) : List JetRec :=
  (jets.filter (fun j =>
    !decide (j.pt < 20) && !decide (|j.eta| > 5) &&
      !jetOverlapsLepton E elecs muons j)).map (fun j =>
    { pt := j.pt, phi := j.phi, eta := j.eta, mass := j.mass
      g := jetGenMatch E j.eta j.phi gjs })

/-- The PF isolation sum of lines 776-781: over ALL PF candidates
(including the candidate itself), add the `pt` of each entry within the
cone `(|pdgId| == 11 ? 0.4 : 0.3)`; divide by the candidate `pt`. -/
def pfIsoOf (E : Oracle) (c : PFCand) (pfCands : List PFCand) : ℚ :=
  (pfCands.foldl (fun isoPF k =>
    if E.dRP4 c.p4 k.p4 > (if |c.pdgId| = 11 then 0.4 else 0.3) then isoPF
    else isoPF + k.pt) 0) / c.pt

/-- One PF-lepton output entry (`pf_*` arrays). -/
structure PfRec where
  pid : Int
  pt : ℚ
  eta : ℚ
  phi : ℚ
  mass : ℚ
  relIso : ℚ
  hp : Bool
deriving Repr

/-- The PF-lepton loop of lines 770-792. -/
def recoPfRecs (E : Oracle) (pfCands : List PFCand) : List PfRec :=
  (pfCands.filter (fun c =>
    (decide (|c.pdgId| = 11) || decide (|c.pdgId| = 13)) &&
      !decide (c.pt < 10) && !decide (|c.eta| > 3))).map (fun c =>
    ⟨c.pdgId, c.pt, c.eta, c.phi, c.mass, pfIsoOf E c pfCands, c.trackHighPurity⟩)

/-- The per-event reconstructed-level output of `recoAnalysis`. -/
structure RecoOut where
  leptons : List LepRec
  jets : List JetRec
  met : List (ℚ × ℚ)
  pf : List PfRec

/-- `MiniFromPat::recoAnalysis`: select the primary vertex and return
early (`none`: the record's reconstructed-level content is left
untouched) when there is none; otherwise fill leptons (muons then
electrons), jets, MET and PF leptons.  `primaryVtxIdx` being
non-negative keeps the `vertices->at(prVtx)` access of line 671 in
range (`getD` below is only read under that guard). -/
def recoAnalysisModel (E : Oracle) (vertices : List Vertex)
    (elecs : List Elec) (muons : List Muon) (mets : List (ℚ × ℚ))
    (pfCands : List PFCand) (jets : List Jet) (gen : GenOut) :
    Option RecoOut :=
  let prVtx := primaryVtxIdx vertices
  if prVtx < 0 then none
  else
    let priVertex := vertices.getD prVtx.toNat ⟨false, 0, 0, 0, 0⟩
    some
      { leptons := recoMuonRecs E vertices priVertex gen.gl muons ++
          recoElecRecs E gen.gl elecs
        jets := recoJetRecs E elecs muons gen.gj jets
        met := match mets with
          | [] => []
          | mh :: _ => [mh]
        pf := recoPfRecs E pfCands }

/-- `MiniFromPat::analyze`: `genAnalysis` runs for simulated events
regardless of the vertex content; `recoAnalysis` always runs and decides
internally whether to fill anything.  The event is written out (tree
fill) in all cases — no path is fatal inside this method. -/
def miniAnalyze (E : Oracle) (isRealData : Bool) (vertices : List Vertex)
    (elecs : List Elec) (muons : List Muon) (mets : List (ℚ × ℚ))
    (pfCands : List PFCand) (jets : List Jet) (genParts : List GenPart)
    (genJets : List GenJet) : Option GenOut × Option RecoOut :=
  let g := if !isRealData then some (genAnalysisModel E genParts genJets) else none
  (g, recoAnalysisModel E vertices elecs muons mets pfCands jets
    (g.getD GenOut.empty))

/-! ## Loop-shape lemmas

Generic characterizations of the three loop idioms of the source:
first-match-with-break, last-match-overwrite, and conditional
accumulate-sum. -/

/-- First index (from `n`) whose element satisfies `p`; -1 when none
does.  The shape of a search loop that breaks on its first hit. -/
def firstIdxAux (p : α → Bool) : List α → Nat → Int
  | [], _ => -1
  | a :: l, n => if p a then (n : Int) else firstIdxAux p l (n + 1)

theorem firstIdxAux_spec (p : α → Bool) :
    ∀ (l : List α) (n : Nat),
      (firstIdxAux p l n = -1 ∧ ∀ a ∈ l, p a = false) ∨
      ∃ i : Nat, ∃ h : i < l.length,
        firstIdxAux p l n = ((n + i : Nat) : Int) ∧ p (l.get ⟨i, h⟩) = true ∧
          ∀ j : Nat, ∀ hj : j < l.length, j < i → p (l.get ⟨j, hj⟩) = false
  | [], _ => Or.inl ⟨rfl, by simp⟩
  | a :: l, n => by
    by_cases hpa : p a
    · refine Or.inr ⟨0, Nat.succ_pos _, ?_, by simpa using hpa, ?_⟩
      · simp [firstIdxAux, hpa]
      · intro j hj hj0
        exact absurd hj0 (Nat.not_lt_zero j)
    · rcases firstIdxAux_spec p l (n + 1) with ⟨h1, h2⟩ | ⟨i, hi, heq, hpi, hmin⟩
      · refine Or.inl ⟨by simp [firstIdxAux, hpa, h1], ?_⟩
        intro x hx
        rcases List.mem_cons.mp hx with rfl | hx
        · simpa using hpa
        · exact h2 x hx
      · refine Or.inr ⟨i + 1, Nat.succ_lt_succ hi, ?_, by simpa using hpi, ?_⟩
        · have : n + (i + 1) = (n + 1) + i := by omega
          simp [firstIdxAux, hpa, this, heq]
        · intro j hj hjlt
          cases j with
          | zero => simpa using hpa
          | succ k =>
            have hk : k < l.length := Nat.lt_of_succ_lt_succ hj
            simpa using hmin k hk (Nat.lt_of_succ_lt_succ hjlt)

/-- Last index (from `n`) whose element satisfies `q`, overwriting an
accumulator; the accumulator when none does.  The shape of a match loop
without a break. -/
def lastIdxLoop (q : α → Bool) : List α → Nat → Int → Int
  | [], _, acc => acc
  | a :: l, n, acc => lastIdxLoop q l (n + 1) (if q a then (n : Int) else acc)

theorem lastIdxLoop_spec (q : α → Bool) :
    ∀ (l : List α) (n : Nat) (acc : Int),
      (lastIdxLoop q l n acc = acc ∧ ∀ a ∈ l, q a = false) ∨
      ∃ i : Nat, ∃ h : i < l.length,
        lastIdxLoop q l n acc = ((n + i : Nat) : Int) ∧ q (l.get ⟨i, h⟩) = true ∧
          ∀ j : Nat, ∀ hj : j < l.length, i < j → q (l.get ⟨j, hj⟩) = false
  | [], _, _ => Or.inl ⟨rfl, by simp⟩
  | a :: l, n, acc => by
    rcases lastIdxLoop_spec q l (n + 1) (if q a then (n : Int) else acc) with
      ⟨heq, hall⟩ | ⟨i, hi, heq, hqi, hmax⟩
    · cases hqa : q a with
      | true =>
        refine Or.inr ⟨0, Nat.succ_pos _, ?_, by simpa using hqa, ?_⟩
        · simp only [hqa, if_true] at heq
          simpa [lastIdxLoop, hqa] using heq
        · intro j hj hj0
          cases j with
          | zero => exact absurd hj0 (Nat.lt_irrefl 0)
          | succ k =>
            have hk : k < l.length := Nat.lt_of_succ_lt_succ hj
            simpa using hall _ (l.get_mem k hk)
      | false =>
        refine Or.inl ⟨?_, ?_⟩
        · simp only [hqa] at heq
          simpa [lastIdxLoop, hqa] using heq
        · intro x hx
          rcases List.mem_cons.mp hx with rfl | hx
          · exact hqa
          · exact hall x hx
    · refine Or.inr ⟨i + 1, Nat.succ_lt_succ hi, ?_, by simpa using hqi, ?_⟩
      · have : n + (i + 1) = (n + 1) + i := by omega
        simp only [lastIdxLoop]
        rw [heq, this]
      · intro j hj hjlt
        cases j with
        | zero => exact absurd hjlt (by omega)
        | succ k =>
          have hk : k < l.length := Nat.lt_of_succ_lt_succ hj
          simpa using hmax k hk (Nat.lt_of_succ_lt_succ hjlt)

/-- Conditional accumulation over a list is the sum over the filtered
list. -/
theorem foldl_filter_sum (p : α → Bool) (f : α → ℚ) :
    ∀ (l : List α) (acc : ℚ),
      l.foldl (fun acc x => if p x then acc + f x else acc) acc =
        acc + ((l.filter p).map f).sum
  | [], acc => by simp
  | a :: l, acc => by
    cases hpa : p a with
    | true =>
      simp only [List.foldl_cons, hpa, if_true]
      rw [foldl_filter_sum p f l (acc + f a)]
      simp [hpa, add_assoc]
    | false =>
      simp only [List.foldl_cons, hpa]
      rw [if_neg (by simp [hpa]), foldl_filter_sum p f l acc]
      simp [hpa]

/-- A valid primary vertex: not fake and `ndof > 4`. -/
def isGoodVtx (v : Vertex) : Bool := !v.isFake && decide (4 < v.ndof)

theorem vtxLoop_of_nonneg :
    ∀ (l : List Vertex) (n : Nat) (acc : Int), 0 ≤ acc → vtxLoop l n acc = acc
  | [], _, _, _ => rfl
  | v :: l, n, acc, hacc => by
    have hrec := vtxLoop_of_nonneg l (n + 1) acc hacc
    unfold vtxLoop
    split
    · exact hrec
    · split
      · exact hrec
      · split
        · omega
        · exact hrec

theorem vtxLoop_eq_firstIdx :
    ∀ (l : List Vertex) (n : Nat),
      vtxLoop l n (-1) = firstIdxAux isGoodVtx l n
  | [], _ => rfl
  | v :: l, n => by
    unfold vtxLoop firstIdxAux
    cases hf : v.isFake with
    | true => simp [isGoodVtx, hf, vtxLoop_eq_firstIdx l (n + 1)]
    | false =>
      by_cases hd : v.ndof ≤ 4
      · rw [if_neg (by simp [hf]), if_pos hd,
          if_neg (by simp [isGoodVtx, hf, not_lt.mpr hd])]
        exact vtxLoop_eq_firstIdx l (n + 1)
      · rw [if_neg (by simp [hf]), if_neg hd, if_pos (by omega),
          if_pos (by simp [isGoodVtx, hf, lt_of_not_le hd])]
        exact vtxLoop_of_nonneg l (n + 1) n (by omega)

/-- Whether a generator-lepton entry qualifies for association to a
reconstructed lepton: same absolute particle-type code, within 0.4. -/
def lepGenQual (E : Oracle) (lpid : Int) (leta lphi : ℚ) (g : GlRec) : Bool :=
  decide (|g.pid| = |lpid|) && !decide (E.dR g.eta g.phi leta lphi > 0.4)

theorem lepGenMatchLoop_eq_lastIdx (E : Oracle) (lpid : Int) (leta lphi : ℚ) :
    ∀ (gls : List GlRec) (n : Nat) (acc : Int),
      lepGenMatchLoop E lpid leta lphi gls n acc =
        lastIdxLoop (lepGenQual E lpid leta lphi) gls n acc
  | [], _, _ => rfl
  | g :: gls, n, acc => by
    unfold lepGenMatchLoop lastIdxLoop
    by_cases h1 : |g.pid| ≠ |lpid|
    · rw [if_pos h1, if_neg (by simp [lepGenQual, fun h => h1 h]),
        lepGenMatchLoop_eq_lastIdx E lpid leta lphi gls (n + 1) acc]
    · have h1' : |g.pid| = |lpid| := not_not.mp h1
      by_cases h2 : E.dR g.eta g.phi leta lphi > 0.4
      · rw [if_neg h1, if_pos h2, if_neg (by simp [lepGenQual, h2]),
          lepGenMatchLoop_eq_lastIdx E lpid leta lphi gls (n + 1) acc]
      · rw [if_neg h1, if_neg h2, if_pos (by simp [lepGenQual, h1', h2]),
          lepGenMatchLoop_eq_lastIdx E lpid leta lphi gls (n + 1) (n : Int)]

/-- Whether a generator-jet entry qualifies for association to a
reconstructed jet: within 0.4. -/
def jetGenQual (E : Oracle) (jeta jphi : ℚ) (g : GjRec) : Bool :=
  !decide (E.dR g.eta g.phi jeta jphi > 0.4)

theorem jetGenMatchLoop_eq_firstIdx (E : Oracle) (jeta jphi : ℚ) :
    ∀ (gjs : List GjRec) (n : Nat),
      jetGenMatchLoop E jeta jphi gjs n =
        firstIdxAux (jetGenQual E jeta jphi) gjs n
  | [], _ => rfl
  | g :: gjs, n => by
    unfold jetGenMatchLoop firstIdxAux
    by_cases h : E.dR g.eta g.phi jeta jphi > 0.4
    · rw [if_pos h, if_neg (by simp [jetGenQual, h]),
        jetGenMatchLoop_eq_firstIdx E jeta jphi gjs (n + 1)]
    · rw [if_neg h, if_pos (by simp [jetGenQual, h])]

/-! ## ME0 loop flattening -/

/-- The (chamber, segment) pairs the `isME0MuonSel` loop body actually
assigns from: segment entries of chambers with `detector() == 5`, in
iteration order. -/
def me0Pairs (m : Muon) : List (ChamberMatch × SegmentMatch) :=
  m.chamberMatches.flatMap (fun c =>
    if c.detector = 5 then c.me0Matches.map (fun s => (c, s)) else [])

theorem foldl_self : ∀ (l : List α) (st : σ), l.foldl (fun st _ => st) st = st
  | [], _ => rfl
  | _ :: l, st => foldl_self l st

/-- The nested chamber/segment overwrite loop of `isME0MuonSel` equals
the flat overwrite fold over `me0Pairs`. -/
theorem selScan_eq_pairs (E : Oracle) :
    ∀ (cs : List ChamberMatch) (st : SelState),
      cs.foldl (fun st c =>
        c.me0Matches.foldl (fun st s =>
          if c.detector = 5 then selAssign E c s else st) st) st =
      (cs.flatMap (fun c =>
        if c.detector = 5 then c.me0Matches.map (fun s => (c, s)) else [])).foldl
        (fun _st p => selAssign E p.1 p.2) st
  | [], _ => rfl
  | c :: cs, st => by
    rw [List.foldl_cons, List.flatMap_cons, List.foldl_append,
      selScan_eq_pairs E cs]
    congr 1
    by_cases hd : c.detector = 5
    · rw [if_pos hd, List.foldl_map]
      exact List.foldl_ext
        (fun st s => if c.detector = 5 then selAssign E c s else st)
        (fun st s => selAssign E (c, s).1 (c, s).2) st
        (fun st s _ => by simp [hd])
    · rw [if_neg hd, List.foldl_nil,
        List.foldl_ext
          (fun st s => if c.detector = 5 then selAssign E c s else st)
          (fun st _ => st) st (fun st s _ => by simp [hd]),
        foldl_self]

theorem foldl_overwrite_last (g : β → σ) (st : σ) (l : List β) (b : β) :
    (l ++ [b]).foldl (fun _st x => g x) st = g b := by
  rw [List.foldl_append]
  rfl

/-- The decision `isME0MuonSel` makes from a single (chamber, segment)
pair: X-criterion (pull OR raw distance), Y-criterion, and the local
deltaPhi direction criterion. -/
def selPairResult (E : Oracle) (c : ChamberMatch) (s : SegmentMatch)
    (pullXCut dXCut pullYCut dYCut dPhi : ℚ) : Bool :=
  ((Dbl.divQ |c.x - s.x| (E.sqrtFP (c.xErr + s.xErr))).ltQ pullXCut ||
      decide (|c.x - s.x| < dXCut)) &&
    ((Dbl.divQ |c.y - s.y| (E.sqrtFP (c.yErr + s.yErr))).ltQ pullYCut ||
      decide (|c.y - s.y| < dYCut)) &&
    decide (|E.atanQ c.dXdZ - E.atanQ s.dXdZ| < dPhi)

/-- On an ME0-flagged muon with at least one (chamber, segment) pair, the
pull/distance matcher's result is determined by the last pair alone. -/
theorem isME0MuonSel_lastPair (E : Oracle) (m : Muon)
    (pullXCut dXCut pullYCut dYCut dPhi : ℚ)
    (ps : List (ChamberMatch × SegmentMatch)) (c : ChamberMatch)
    (s : SegmentMatch) (hME0 : m.isME0Muon = true)
    (hpairs : me0Pairs m = ps ++ [(c, s)]) :
    isME0MuonSel E m pullXCut dXCut pullYCut dYCut dPhi =
      selPairResult E c s pullXCut dXCut pullYCut dYCut dPhi := by
  unfold isME0MuonSel
  rw [if_pos hME0, selScan_eq_pairs E]
  rw [show (m.chamberMatches.flatMap (fun c =>
    if c.detector = 5 then c.me0Matches.map (fun s => (c, s)) else [])) =
      me0Pairs m from rfl, hpairs, foldl_overwrite_last]
  rfl

theorem foldl_orFlag (p : α → Bool) :
    ∀ (l : List α) (r : Bool),
      l.foldl (fun r a => if p a then true else r) r = (r || l.any p)
  | [], r => by simp
  | a :: l, r => by
    rw [List.foldl_cons, foldl_orFlag p l]
    cases hpa : p a with
    | true => simp [hpa, Bool.or_assoc]
    | false => simp [hpa]

/-- The angle/eta matcher is true iff the muon is ME0-flagged and SOME
(chamber, segment) pair of an ME0 chamber passes all three cuts. -/
theorem isME0MuonSelNew_any (E : Oracle) (m : Muon)
    (dEtaCut dPhiCut dPhiBendCut : ℚ) :
    isME0MuonSelNew E m dEtaCut dPhiCut dPhiBendCut =
      (m.isME0Muon && m.chamberMatches.any (fun c =>
        decide (c.detector = 5) &&
          c.me0Matches.any (fun s => selNewPass E c s dEtaCut dPhiCut dPhiBendCut))) := by
  unfold isME0MuonSelNew
  cases hm : m.isME0Muon with
  | false => simp
  | true =>
    simp only [if_pos, Bool.true_and]
    have main : ∀ (cs : List ChamberMatch) (r : Bool),
        cs.foldl (fun result c =>
          if c.detector = 5 then
            c.me0Matches.foldl (fun result s =>
              if selNewPass E c s dEtaCut dPhiCut dPhiBendCut then true else result)
              result
          else result) r =
        (r || cs.any (fun c => decide (c.detector = 5) &&
          c.me0Matches.any (fun s => selNewPass E c s dEtaCut dPhiCut dPhiBendCut))) := by
      intro cs
      induction cs with
      | nil => simp
      | cons c cs ih =>
        intro r
        by_cases hd : c.detector = 5
        · rw [List.foldl_cons, if_pos hd, foldl_orFlag, ih, List.any_cons]
          simp [hd, Bool.or_assoc]
        · rw [List.foldl_cons, if_neg hd, ih, List.any_cons]
          simp [hd]
    exact main m.chamberMatches false

/-! ## Isolation-sum characterizations -/

/-- Whether a jet constituent contributes to the generator-lepton
isolation sum: not the lepton itself (`deltaR >= 0.01`) and inside the
type-dependent cone encoded by the source's two skip conditions. -/
def genConstKeep (E : Oracle) (gp : GenPart) (c : P4) : Bool :=
  !decide (E.dRP4 gp.p4 c < 0.01) &&
    !decide (|gp.pdgId| = 13 ∧ E.dRP4 gp.p4 c > 0.4) &&
    !decide (|gp.pdgId| = 11 ∧ E.dRP4 gp.p4 c > 0.3)

/-- Whether a kept generator jet's constituents are scanned at all for
the lepton: the jet is within 0.7. -/
def genJetGate (E : Oracle) (gp : GenPart) (gj : GenJet) : Bool :=
  !decide (E.dRP4 gp.p4 gj.p4 > 0.7)

theorem genIso_inner_sum (E : Oracle) (gp : GenPart) (cs : List P4) (acc : ℚ) :
    cs.foldl (fun genIso c =>
      let deltaR := E.dRP4 gp.p4 c
      if deltaR < 0.01 then genIso
      else if |gp.pdgId| = 13 ∧ deltaR > 0.4 then genIso
      else if |gp.pdgId| = 11 ∧ deltaR > 0.3 then genIso
      else genIso + c.pt) acc =
    acc + ((cs.filter (genConstKeep E gp)).map P4.pt).sum := by
  rw [List.foldl_ext _
    (fun genIso c => if genConstKeep E gp c then genIso + c.pt else genIso) acc
    (fun genIso c _ => by
      by_cases h1 : E.dRP4 gp.p4 c < 0.01 <;>
        by_cases h2 : |gp.pdgId| = 13 ∧ E.dRP4 gp.p4 c > 0.4 <;>
          by_cases h3 : |gp.pdgId| = 11 ∧ E.dRP4 gp.p4 c > 0.3 <;>
            simp [genConstKeep, h1, h2, h3])]
  exact foldl_filter_sum (genConstKeep E gp) P4.pt cs acc

theorem genIso_outer_sum (E : Oracle) (gp : GenPart) :
    ∀ (selJets : List GenJet) (acc : ℚ),
      selJets.foldl (fun genIso gj =>
        if E.dRP4 gp.p4 gj.p4 > 0.7 then genIso
        else gj.constituents.foldl (fun genIso c =>
          let deltaR := E.dRP4 gp.p4 c
          if deltaR < 0.01 then genIso
          else if |gp.pdgId| = 13 ∧ deltaR > 0.4 then genIso
          else if |gp.pdgId| = 11 ∧ deltaR > 0.3 then genIso
          else genIso + c.pt) genIso) acc =
      acc + ((selJets.filter (genJetGate E gp)).map (fun gj =>
        ((gj.constituents.filter (genConstKeep E gp)).map P4.pt).sum)).sum
  | [], acc => by simp
  | gj :: selJets, acc => by
    rw [List.foldl_cons]
    by_cases hg : E.dRP4 gp.p4 gj.p4 > 0.7
    · rw [if_pos hg, genIso_outer_sum E gp selJets acc]
      have : genJetGate E gp gj = false := by simp [genJetGate, hg]
      simp [this]
    · rw [if_neg hg, genIso_inner_sum E gp, genIso_outer_sum E gp selJets]
      have : genJetGate E gp gj = true := by simp [genJetGate, hg]
      simp [this, add_assoc]

/-- The generator-lepton isolation as a filtered sum. -/
theorem genIsoOf_eq_sum (E : Oracle) (gp : GenPart) (selJets : List GenJet) :
    genIsoOf E gp selJets =
      ((selJets.filter (genJetGate E gp)).map (fun gj =>
        ((gj.constituents.filter (genConstKeep E gp)).map P4.pt).sum)).sum / gp.pt := by
  unfold genIsoOf
  rw [genIso_outer_sum E gp selJets 0, zero_add]

/-- The PF isolation as a filtered sum: the cone is 0.4 for
`|pdgId| == 11` (electron-type) and 0.3 otherwise, and nothing excludes
the candidate itself from the pool. -/
theorem pfIsoOf_eq_sum (E : Oracle) (c : PFCand) (pfCands : List PFCand) :
    pfIsoOf E c pfCands =
      ((pfCands.filter (fun k =>
        !decide (E.dRP4 c.p4 k.p4 > (if |c.pdgId| = 11 then 0.4 else 0.3)))).map
          PFCand.pt).sum / c.pt := by
  unfold pfIsoOf
  rw [List.foldl_ext _
    (fun isoPF k =>
      if !decide (E.dRP4 c.p4 k.p4 > (if |c.pdgId| = 11 then 0.4 else 0.3)) then
        isoPF + k.pt
      else isoPF) 0
    (fun isoPF k _ => by
      by_cases h : E.dRP4 c.p4 k.p4 > (if |c.pdgId| = 11 then 0.4 else 0.3) <;>
        simp [h]),
    foldl_filter_sum, zero_add]

/-! ## Claim theorems -/

/-- Claim C6: for every vertex list, the selected primary-vertex index is
the smallest `i` such that `vertex[i]` is not fake and `ndof(vertex[i]) > 4`,
and the sentinel -1 when no such vertex exists. -/
theorem c6_primary_vertex_smallest (vs : List Vertex) :
    (primaryVtxIdx vs = -1 ∧ ∀ v ∈ vs, v.isFake = true ∨ v.ndof ≤ 4) ∨
    ∃ i : Nat, ∃ h : i < vs.length,
      primaryVtxIdx vs = (i : Int) ∧ (vs.get ⟨i, h⟩).isFake = false ∧
        4 < (vs.get ⟨i, h⟩).ndof ∧
        ∀ j : Nat, ∀ hj : j < vs.length, j < i →
          (vs.get ⟨j, hj⟩).isFake = true ∨ (vs.get ⟨j, hj⟩).ndof ≤ 4 := by
  have hfalse : ∀ v : Vertex, isGoodVtx v = false ↔ (v.isFake = true ∨ v.ndof ≤ 4) := by
    intro v
    cases hf : v.isFake <;> simp [isGoodVtx, hf, not_lt]
  have htrue : ∀ v : Vertex, isGoodVtx v = true ↔ (v.isFake = false ∧ 4 < v.ndof) := by
    intro v
    cases hf : v.isFake <;> simp [isGoodVtx, hf]
  rw [primaryVtxIdx, vtxLoop_eq_firstIdx]
  rcases firstIdxAux_spec isGoodVtx vs 0 with ⟨h1, h2⟩ | ⟨i, hi, heq, hpi, hmin⟩
  · exact Or.inl ⟨h1, fun v hv => (hfalse v).mp (h2 v hv)⟩
  · refine Or.inr ⟨i, hi, by simpa using heq, ((htrue _).mp hpi).1,
      ((htrue _).mp hpi).2, ?_⟩
    intro j hj hji
    exact (hfalse _).mp (hmin j hj hji)

theorem clampCut_facts (k ceil p q : ℚ) (hk : 0 < k)
    (hceil : k / 100 ≤ ceil) (hp : 0 < p) (hpq : p ≤ q) :
    min (max (k / q) (k / 100)) ceil ≤ min (max (k / p) (k / 100)) ceil ∧
    k / 100 ≤ min (max (k / p) (k / 100)) ceil ∧
    min (max (k / p) (k / 100)) ceil ≤ ceil := by
  have hq : 0 < q := lt_of_lt_of_le hp hpq
  have hdiv : k / q ≤ k / p := by
    apply div_le_div_of_nonneg_left (le_of_lt hk) hp hpq
  exact ⟨min_le_min (max_le_max hdiv (le_refl _)) (le_refl _),
    le_min (le_max_right _ _) hceil, min_le_right _ _⟩

/-- Claim C7: each momentum-dependent ME0 cut
`clamp(k/p, k/100, ceiling)` is monotonically non-increasing in `p` and
bounded within `[k/100, ceiling]` for `p > 0`; for the loose deltaPhi
cut, `phiCut(10) = 0.056` (clamped to the ceiling) and
`phiCut(1000) = 0.012` (clamped up to `1.2/100`); the same shape holds
for the deltaPhi-bend cuts and the tight-tier constants. -/
theorem c7_me0_cut_clamp (p q : ℚ) (hp : 0 < p) (hpq : p ≤ q) :
    (looseDPhiCut q ≤ looseDPhiCut p ∧ 0.012 ≤ looseDPhiCut p ∧
      looseDPhiCut p ≤ 0.056) ∧
    (looseDPhiBendCut q ≤ looseDPhiBendCut p ∧ 0.002 ≤ looseDPhiBendCut p ∧
      looseDPhiBendCut p ≤ 0.0096) ∧
    (tightDPhiCut q ≤ tightDPhiCut p ∧ 0.012 ≤ tightDPhiCut p ∧
      tightDPhiCut p ≤ 0.032) ∧
    (tightDPhiBendCut q ≤ tightDPhiBendCut p ∧ 0.002 ≤ tightDPhiBendCut p ∧
      tightDPhiBendCut p ≤ 0.0041) ∧
    looseDPhiCut 10 = 0.056 ∧ looseDPhiCut 1000 = 0.012 := by
  have h1 := clampCut_facts 1.2 0.056 p q (by norm_num) (by norm_num) hp hpq
  have h2 := clampCut_facts 0.2 0.0096 p q (by norm_num) (by norm_num) hp hpq
  have h3 := clampCut_facts 1.2 0.032 p q (by norm_num) (by norm_num) hp hpq
  have h4 := clampCut_facts 0.2 0.0041 p q (by norm_num) (by norm_num) hp hpq
  have e12 : (1.2 : ℚ) / 100 = 0.012 := by norm_num
  have e02 : (0.2 : ℚ) / 100 = 0.002 := by norm_num
  refine ⟨⟨h1.1, ?_, h1.2.2⟩, ⟨h2.1, ?_, h2.2.2⟩, ⟨h3.1, ?_, h3.2.2⟩,
    ⟨h4.1, ?_, h4.2.2⟩, ?_, ?_⟩
  · rw [looseDPhiCut, ← e12]; exact h1.2.1
  · rw [looseDPhiBendCut, ← e02]; exact h2.2.1
  · rw [tightDPhiCut, ← e12]; exact h3.2.1
  · rw [tightDPhiBendCut, ← e02]; exact h4.2.1
  · rw [looseDPhiCut]; norm_num
  · rw [looseDPhiCut]; norm_num

/-- Witness for C7 at the spec's own example momenta 10 and 1000. -/
theorem c7_me0_cut_clamp_witness :
    looseDPhiCut 1000 ≤ looseDPhiCut 10 ∧ 0.012 ≤ looseDPhiCut 10 ∧
      looseDPhiCut 10 ≤ 0.056 :=
  (c7_me0_cut_clamp 10 1000 (by norm_num) (by norm_num)).1

/-- Claim C8: in the electron tier predicates, the energy-momentum
consistency variable is 0 when `ecalEnergy == 0`, 998 when `ecalEnergy`
is NaN or infinite, and `|1/E − (E/p)/E|` otherwise. -/
theorem c8_ooemoop_sentinel (e : Elec) :
    (e.ecalEnergy = Dbl.fin 0 → elecOoemoop e = 0) ∧
    ((e.ecalEnergy = Dbl.nan ∨ e.ecalEnergy = Dbl.pinf ∨ e.ecalEnergy = Dbl.ninf) →
      elecOoemoop e = 998) ∧
    (∀ q : ℚ, e.ecalEnergy = Dbl.fin q → q ≠ 0 →
      elecOoemoop e = |1 / q - e.eSuperClusterOverP / q|) := by
  refine ⟨?_, ?_, ?_⟩
  · intro h
    simp [elecOoemoop, h, Dbl.eqZero]
  · rintro (h | h | h) <;> simp [elecOoemoop, h, Dbl.eqZero, Dbl.isFinite]
  · intro q hq hne
    simp [elecOoemoop, hq, Dbl.eqZero, Dbl.isFinite, Dbl.toRat, hne]

/-- Claim C4: the reconstructed-lepton generator association keeps the
LAST qualifying generator lepton (same `|pid|`, within 0.4), the jet
generator association keeps the FIRST generator jet within 0.4, and both
store the sentinel -1 when nothing qualifies. -/
theorem c4_gen_association_order (E : Oracle) (lpid : Int) (leta lphi : ℚ)
    (gls : List GlRec) (jeta jphi : ℚ) (gjs : List GjRec) :
    ((lepGenMatch E lpid leta lphi gls = -1 ∧
        ∀ g ∈ gls, ¬(|g.pid| = |lpid| ∧ E.dR g.eta g.phi leta lphi ≤ 0.4)) ∨
      ∃ i : Nat, ∃ h : i < gls.length,
        lepGenMatch E lpid leta lphi gls = (i : Int) ∧
          |(gls.get ⟨i, h⟩).pid| = |lpid| ∧
          E.dR (gls.get ⟨i, h⟩).eta (gls.get ⟨i, h⟩).phi leta lphi ≤ 0.4 ∧
          ∀ j : Nat, ∀ hj : j < gls.length, i < j →
            ¬(|(gls.get ⟨j, hj⟩).pid| = |lpid| ∧
              E.dR (gls.get ⟨j, hj⟩).eta (gls.get ⟨j, hj⟩).phi leta lphi ≤ 0.4)) ∧
    ((jetGenMatch E jeta jphi gjs = -1 ∧
        ∀ g ∈ gjs, ¬(E.dR g.eta g.phi jeta jphi ≤ 0.4)) ∨
      ∃ i : Nat, ∃ h : i < gjs.length,
        jetGenMatch E jeta jphi gjs = (i : Int) ∧
          E.dR (gjs.get ⟨i, h⟩).eta (gjs.get ⟨i, h⟩).phi jeta jphi ≤ 0.4 ∧
          ∀ j : Nat, ∀ hj : j < gjs.length, j < i →
            ¬(E.dR (gjs.get ⟨j, hj⟩).eta (gjs.get ⟨j, hj⟩).phi jeta jphi ≤ 0.4)) := by
  have hlepT : ∀ g : GlRec, lepGenQual E lpid leta lphi g = true ↔
      (|g.pid| = |lpid| ∧ E.dR g.eta g.phi leta lphi ≤ 0.4) := by
    intro g
    simp [lepGenQual, not_lt]
  have hlepF : ∀ g : GlRec, lepGenQual E lpid leta lphi g = false ↔
      ¬(|g.pid| = |lpid| ∧ E.dR g.eta g.phi leta lphi ≤ 0.4) := by
    intro g
    rw [Bool.eq_false_iff]
    exact not_congr (hlepT g)
  have hjetT : ∀ g : GjRec, jetGenQual E jeta jphi g = true ↔
      E.dR g.eta g.phi jeta jphi ≤ 0.4 := by
    intro g
    simp [jetGenQual, not_lt]
  have hjetF : ∀ g : GjRec, jetGenQual E jeta jphi g = false ↔
      ¬(E.dR g.eta g.phi jeta jphi ≤ 0.4) := by
    intro g
    rw [Bool.eq_false_iff]
    exact not_congr (hjetT g)
  constructor
  · rw [lepGenMatch, lepGenMatchLoop_eq_lastIdx]
    rcases lastIdxLoop_spec (lepGenQual E lpid leta lphi) gls 0 (-1) with
      ⟨h1, h2⟩ | ⟨i, hi, heq, hqi, hmax⟩
    · exact Or.inl ⟨h1, fun g hg => (hlepF g).mp (h2 g hg)⟩
    · refine Or.inr ⟨i, hi, by simpa using heq, ((hlepT _).mp hqi).1,
        ((hlepT _).mp hqi).2, ?_⟩
      intro j hj hij
      exact (hlepF _).mp (hmax j hj hij)
  · rw [jetGenMatch, jetGenMatchLoop_eq_firstIdx]
    rcases firstIdxAux_spec (jetGenQual E jeta jphi) gjs 0 with
      ⟨h1, h2⟩ | ⟨i, hi, heq, hqi, hmin⟩
    · exact Or.inl ⟨h1, fun g hg => (hjetF g).mp (h2 g hg)⟩
    · refine Or.inr ⟨i, hi, by simpa using heq, (hjetT _).mp hqi, ?_⟩
      intro j hj hji
      exact (hjetF _).mp (hmin j hj hji)

theorem pull_nonfinite_of_nonpos (f : ℚ → Dbl) (hsqrt : SqrtSpec f)
    (num errSum : ℚ) (herr : errSum ≤ 0) :
    (Dbl.divQ |num| (f errSum)).isFinite = false ∧
      ∀ cut : ℚ, (Dbl.divQ |num| (f errSum)).ltQ cut = false := by
  rcases lt_or_eq_of_le herr with hlt | heq
  · rw [hsqrt.1 errSum hlt]
    exact ⟨rfl, fun _ => rfl⟩
  · rw [heq] at *
    rw [hsqrt.2.1]
    by_cases hnum : |num| = 0
    · simp [Dbl.divQ, hnum, Dbl.isFinite, Dbl.ltQ]
    · have hpos : 0 < |num| := lt_of_le_of_ne (abs_nonneg num) (Ne.symm hnum)
      simp [Dbl.divQ, hnum, hpos, Dbl.isFinite, Dbl.ltQ]

/-- Claim C9: in the pull/distance ME0 matcher, a non-positive combined
uncertainty sum makes the pull non-finite (NaN or +∞), the comparison of
that pull against any finite cut false, and the matcher still returns a
plain boolean — here, the pure distance/direction decision of the
muon's only (chamber, segment) pair. -/
theorem c9_pull_nonfinite (E : Oracle) (m : Muon) (c : ChamberMatch)
    (s : SegmentMatch) (num errSum cut : ℚ)
    (pullXCut dXCut pullYCut dYCut dPhi : ℚ)
    (hsqrt : SqrtSpec E.sqrtFP) (herr : errSum ≤ 0)
    (hME0 : m.isME0Muon = true) (hpairs : me0Pairs m = [(c, s)])
    (hx : c.xErr + s.xErr ≤ 0) (hy : c.yErr + s.yErr ≤ 0) :
    (Dbl.divQ |num| (E.sqrtFP errSum)).isFinite = false ∧
    (Dbl.divQ |num| (E.sqrtFP errSum)).ltQ cut = false ∧
    isME0MuonSel E m pullXCut dXCut pullYCut dYCut dPhi =
      (decide (|c.x - s.x| < dXCut) && decide (|c.y - s.y| < dYCut) &&
        decide (|E.atanQ c.dXdZ - E.atanQ s.dXdZ| < dPhi)) := by
  have hgen := pull_nonfinite_of_nonpos E.sqrtFP hsqrt num errSum herr
  have hxp := pull_nonfinite_of_nonpos E.sqrtFP hsqrt (c.x - s.x) (c.xErr + s.xErr) hx
  have hyp := pull_nonfinite_of_nonpos E.sqrtFP hsqrt (c.y - s.y) (c.yErr + s.yErr) hy
  refine ⟨hgen.1, hgen.2 cut, ?_⟩
  rw [isME0MuonSel_lastPair E m pullXCut dXCut pullYCut dYCut dPhi [] c s hME0
    (by simpa using hpairs)]
  rw [selPairResult, hxp.2 pullXCut, hyp.2 pullYCut]
  simp

/-- Claim C10: the pull/distance matcher's residuals are overwritten on
every ME0 (chamber, segment) iteration and compared only after the
loops, so its result is the X (pull-or-distance), Y and deltaPhi
decision of the LAST pair; the angle/eta matcher instead returns true
iff ANY (chamber, segment) pair of an ME0 chamber passes all its cuts. -/
theorem c10_me0_variant_semantics (E : Oracle) (m : Muon)
    (ps : List (ChamberMatch × SegmentMatch)) (c : ChamberMatch)
    (s : SegmentMatch) (pullXCut dXCut pullYCut dYCut dPhi : ℚ)
    (hME0 : m.isME0Muon = true) (hpairs : me0Pairs m = ps ++ [(c, s)]) :
    isME0MuonSel E m pullXCut dXCut pullYCut dYCut dPhi =
      selPairResult E c s pullXCut dXCut pullYCut dYCut dPhi ∧
    ∀ (m' : Muon) (dEtaCut dPhiCut dPhiBendCut : ℚ),
      isME0MuonSelNew E m' dEtaCut dPhiCut dPhiBendCut = true ↔
        (m'.isME0Muon = true ∧ ∃ ch ∈ m'.chamberMatches, ch.detector = 5 ∧
          ∃ sg ∈ ch.me0Matches,
            selNewPass E ch sg dEtaCut dPhiCut dPhiBendCut = true) := by
  refine ⟨isME0MuonSel_lastPair E m pullXCut dXCut pullYCut dYCut dPhi ps c s
    hME0 hpairs, ?_⟩
  intro m' dEtaCut dPhiCut dPhiBendCut
  rw [isME0MuonSelNew_any]
  simp [List.any_eq_true]

/-! ## Concrete inputs for witnesses and counterexamples -/

/-- A concrete oracle: angular distance 0 between identical
four-momenta and 0.35 otherwise, a `SqrtSpec`-conforming `sqrt`
stand-in, identity `atan`, trivial geometry. -/
def oracle0 : Oracle :=
  { dR := fun _ _ _ _ => 0
    dRP4 := fun a b => if a = b then 0 else 7/20
    atanQ := fun x => x
    sqrtFP := fun sq => if sq < 0 then Dbl.nan else Dbl.fin 0
    geoEta := fun _ _ _ => 0
    geoPhi := fun _ _ _ => 0
    geoDPhi := fun _ _ _ _ _ => 0 }

theorem oracle0_sqrtSpec : SqrtSpec oracle0.sqrtFP := by
  refine ⟨?_, ?_, ?_⟩
  · intro sq h
    simp [oracle0, h]
  · simp [oracle0]
  · intro sq h
    exact ⟨0, le_refl 0, by simp [oracle0, not_lt.mpr (le_of_lt h)]⟩

/-- A segment at the chamber origin with zero uncertainties. -/
def seg0 : SegmentMatch := ⟨0, 0, 0, 0, 0⟩

/-- A displaced segment with zero uncertainties. -/
def seg1 : SegmentMatch := ⟨1, 2, 0, 0, 0⟩

/-- An ME0 chamber (detector tag 5) carrying two segment matches. -/
def cham0 : ChamberMatch := ⟨0, 0, 0, 0, 0, 0, 5, 0, [seg0, seg1]⟩

/-- An ME0 chamber carrying a single segment match, all uncertainties
zero. -/
def cham1 : ChamberMatch := ⟨1, 2, 0, 0, 0, 0, 5, 0, [seg0]⟩

/-- A forward ME0-flagged muon with two (chamber, segment) pairs. -/
def muonME0two : Muon :=
  { pt := 20, eta := 27/10, phi := 0, mass := 0, p := 40, charge := 1,
    stdLoose := false, stdMedium := false, stdTightAt := fun _ => false,
    innerTrackNonnull := false, dxyAt := fun _ => 0, dzAt := fun _ => 0,
    numberOfValidPixelHits := 0, highPurity := false, isME0Muon := true,
    chamberMatches := [cham0], puppiNoLepChHadIso := 0,
    puppiNoLepNeuHadIso := 0, puppiNoLepPhoIso := 0 }

/-- A forward ME0-flagged muon with a single (chamber, segment) pair of
zero combined uncertainty. -/
def muonME0one : Muon :=
  { muonME0two with chamberMatches := [cham1] }

/-- Witness for C10 on a concrete two-pair muon. -/
theorem c10_me0_variant_semantics_witness :
    isME0MuonSel oracle0 muonME0two 3 4 3 4 0.5 =
      selPairResult oracle0 cham0 seg1 3 4 3 4 0.5 :=
  (c10_me0_variant_semantics oracle0 muonME0two [(cham0, seg0)] cham0 seg1
    3 4 3 4 0.5 rfl rfl).1

/-- Witness for C9 on a concrete single-pair muon whose combined
uncertainty sums are zero. -/
theorem c9_pull_nonfinite_witness :
    (Dbl.divQ |(1 : ℚ)| (oracle0.sqrtFP 0)).isFinite = false ∧
    (Dbl.divQ |(1 : ℚ)| (oracle0.sqrtFP 0)).ltQ 3 = false ∧
    isME0MuonSel oracle0 muonME0one 3 4 3 4 0.5 =
      (decide (|cham1.x - seg0.x| < 4) && decide (|cham1.y - seg0.y| < 4) &&
        decide (|oracle0.atanQ cham1.dXdZ - oracle0.atanQ seg0.dXdZ| < 0.5)) :=
  c9_pull_nonfinite oracle0 muonME0one cham1 seg0 1 0 3 3 4 3 4 0.5
    oracle0_sqrtSpec (le_refl 0) rfl rfl (by norm_num [cham1, seg0])
    (by norm_num [cham1, seg0])

/-! ## Electron tier relations (C2) -/

theorem isLooseElec_iff (e : Elec) :
    isLooseElec e = true ↔
      (¬(|e.superClusterEta| > 1.479 ∧ |e.superClusterEta| < 1.556) ∧
        e.full5x5SigmaIetaIeta ≤ 0.02992 ∧
        |e.deltaEtaSuperClusterTrackAtVtx| ≤ 0.004119 ∧
        |e.deltaPhiSuperClusterTrackAtVtx| ≤ 0.05176 ∧
        e.hcalOverEcal ≤ 6.741 ∧ e.sumChargedHadronPt / e.pt ≤ 2.5 ∧
        elecOoemoop e ≤ 73.76 ∧ e.hasMatchedConversion = false) := by
  unfold isLooseElec
  split_ifs with h1 h2 h3 h4 h5 h6 h7 h8 <;>
    simp_all [not_lt, le_of_not_lt]

theorem isMediumElec_iff (e : Elec) :
    isMediumElec e = true ↔
      (¬(|e.superClusterEta| > 1.479 ∧ |e.superClusterEta| < 1.556) ∧
        e.full5x5SigmaIetaIeta ≤ 0.01609 ∧
        |e.deltaEtaSuperClusterTrackAtVtx| ≤ 0.001766 ∧
        |e.deltaPhiSuperClusterTrackAtVtx| ≤ 0.03130 ∧
        e.hcalOverEcal ≤ 7.371 ∧ e.sumChargedHadronPt / e.pt ≤ 1.325 ∧
        elecOoemoop e ≤ 22.6 ∧ e.hasMatchedConversion = false) := by
  unfold isMediumElec
  split_ifs with h1 h2 h3 h4 h5 h6 h7 h8 <;>
    simp_all [not_lt, le_of_not_lt]

theorem isTightElec_iff (e : Elec) :
    isTightElec e = true ↔
      (¬(|e.superClusterEta| > 1.479 ∧ |e.superClusterEta| < 1.556) ∧
        e.full5x5SigmaIetaIeta ≤ 0.01614 ∧
        |e.deltaEtaSuperClusterTrackAtVtx| ≤ 0.001322 ∧
        |e.deltaPhiSuperClusterTrackAtVtx| ≤ 0.06129 ∧
        e.hcalOverEcal ≤ 4.492 ∧ e.sumChargedHadronPt / e.pt ≤ 1.255 ∧
        elecOoemoop e ≤ 18.26 ∧ e.hasMatchedConversion = false) := by
  unfold isTightElec
  split_ifs with h1 h2 h3 h4 h5 h6 h7 h8 <;>
    simp_all [not_lt, le_of_not_lt]

/-- An electron that passes the medium tier but fails the loose tier:
its `hcalOverEcal` (7) is below medium's threshold (7.371) but above
loose's (6.741). -/
def elecMedNotLoose : Elec :=
  { pt := 10, eta := 0, phi := 0, mass := 0, charge := -1,
    superClusterEta := 0, full5x5SigmaIetaIeta := 0.01,
    deltaEtaSuperClusterTrackAtVtx := 0.001,
    deltaPhiSuperClusterTrackAtVtx := 0.03, hcalOverEcal := 7,
    sumChargedHadronPt := 10, ecalEnergy := Dbl.fin 1,
    eSuperClusterOverP := 1, hasMatchedConversion := false,
    puppiNoLepChHadIso := 0, puppiNoLepNeuHadIso := 0,
    puppiNoLepPhoIso := 0 }

/-- An electron that passes the tight tier but fails the medium tier:
its shower width (0.0161) is below tight's threshold (0.01614) but
above medium's (0.01609), and its `deltaPhi` (0.05) is below tight's
threshold (0.06129) but above medium's (0.0313). -/
def elecTightNotMedium : Elec :=
  { elecMedNotLoose with
    full5x5SigmaIetaIeta := 0.0161
    deltaPhiSuperClusterTrackAtVtx := 0.05
    hcalOverEcal := 4 }

/-- Counterexample for C2: medium does not imply loose, and tight does
not imply medium, on concrete electrons. -/
theorem c2_tier_nesting_counterexample :
    isMediumElec elecMedNotLoose = true ∧ isLooseElec elecMedNotLoose = false ∧
    isTightElec elecTightNotMedium = true ∧
    isMediumElec elecTightNotMedium = false := by
  refine ⟨(isMediumElec_iff _).mpr ?_, ?_, (isTightElec_iff _).mpr ?_, ?_⟩
  · norm_num [elecMedNotLoose, elecOoemoop, Dbl.eqZero, Dbl.isFinite, Dbl.toRat]
    constructor <;> rw [abs_of_nonneg (by norm_num)] <;> norm_num
  · rw [Bool.eq_false_iff]
    intro h
    have hconj := (isLooseElec_iff _).mp h
    norm_num [elecMedNotLoose] at hconj
  · norm_num [elecTightNotMedium, elecMedNotLoose, elecOoemoop, Dbl.eqZero,
      Dbl.isFinite, Dbl.toRat]
    constructor <;> rw [abs_of_nonneg (by norm_num)] <;> norm_num
  · rw [Bool.eq_false_iff]
    intro h
    have hconj := (isMediumElec_iff _).mp h
    norm_num [elecTightNotMedium, elecMedNotLoose] at hconj

/-- Claim C2 (amended): the electron tier implications hold only once
the non-monotone thresholds are assumed on the tighter side: medium
implies loose for electrons with `hcalOverEcal ≤ 6.741` (loose's
threshold, below medium's 7.371), and tight implies medium for
electrons with shower width `≤ 0.01609` and `|deltaPhi| ≤ 0.0313`
(medium's thresholds, below tight's 0.01614 and 0.06129). -/
theorem c2_tier_implications_amended (e : Elec) :
    (isMediumElec e = true → e.hcalOverEcal ≤ 6.741 → isLooseElec e = true) ∧
    (isTightElec e = true → e.full5x5SigmaIetaIeta ≤ 0.01609 →
      |e.deltaPhiSuperClusterTrackAtVtx| ≤ 0.03130 → isMediumElec e = true) := by
  constructor
  · intro hmed hhcal
    obtain ⟨g1, g2, g3, g4, _, g6, g7, g8⟩ := (isMediumElec_iff e).mp hmed
    exact (isLooseElec_iff e).mpr ⟨g1, le_trans g2 (by norm_num),
      le_trans g3 (by norm_num), le_trans g4 (by norm_num), hhcal,
      le_trans g6 (by norm_num), le_trans g7 (by norm_num), g8⟩
  · intro htight hsigma hdphi
    obtain ⟨g1, _, g3, _, g5, g6, g7, g8⟩ := (isTightElec_iff e).mp htight
    exact (isMediumElec_iff e).mpr ⟨g1, hsigma, le_trans g3 (by norm_num),
      hdphi, le_trans g5 (by norm_num), le_trans g6 (by norm_num),
      le_trans g7 (by norm_num), g8⟩

/-! ## Isolation (C3) -/

/-- A muon-type PF candidate. -/
def pfMu : PFCand := ⟨13, 20, 0, 0, 0, false⟩

/-- An electron-type PF candidate. -/
def pfEl : PFCand := ⟨11, 10, 1, 1, 0, false⟩

/-- A hadron PF candidate 0.35 away from `pfEl` under `oracle0`. -/
def pfOther : PFCand := ⟨211, 5, 2, 2, 0, false⟩

/-- Counterexample for C3: the PF isolation of a candidate over the pool
containing exactly the candidate itself is 1, not 0 (nothing excludes
the self-match), and an electron-type candidate picks up a pool entry at
angular distance 0.35 (the code's electron cone is 0.4, not 0.3). -/
theorem c3_isolation_counterexample :
    pfIsoOf oracle0 pfMu [pfMu] = 1 ∧
    pfIsoOf oracle0 pfEl [pfEl, pfOther] = 3 / 2 := by
  constructor
  · rw [pfIsoOf]
    norm_num [oracle0, pfMu, PFCand.p4]
  · rw [pfIsoOf]
    norm_num [oracle0, pfEl, pfOther, PFCand.p4, P4.mk.injEq]

theorem genConstKeep_mu (E : Oracle) (gp : GenPart) (c : P4)
    (h : |gp.pdgId| = 13) :
    genConstKeep E gp c =
      (decide (0.01 ≤ E.dRP4 gp.p4 c) && decide (E.dRP4 gp.p4 c ≤ 0.4)) := by
  norm_num [genConstKeep, h, ← decide_not, not_lt, Bool.and_assoc]

theorem genConstKeep_el (E : Oracle) (gp : GenPart) (c : P4)
    (h : |gp.pdgId| = 11) :
    genConstKeep E gp c =
      (decide (0.01 ≤ E.dRP4 gp.p4 c) && decide (E.dRP4 gp.p4 c ≤ 0.3)) := by
  norm_num [genConstKeep, h, ← decide_not, not_lt, Bool.and_assoc]

/-- Claim C3 (amended): the generator-level isolation sum behaves as
claimed — cone 0.4 for muon-type, 0.3 for electron-type, the candidate
itself excluded by the ΔR < 0.01 self-match rule, so the self-only pool
gives 0 — but the PF-candidate isolation applies cone 0.4 to
electron-type and 0.3 to muon-type (reversed) and never excludes the
candidate itself, so its self-only pool gives 1. -/
theorem c3_isolation_amended :
    (∀ (E : Oracle) (gp : GenPart) (selJets : List GenJet), |gp.pdgId| = 13 →
      genIsoOf E gp selJets =
        ((selJets.filter (fun gj => decide (E.dRP4 gp.p4 gj.p4 ≤ 0.7))).map
          (fun gj => ((gj.constituents.filter (fun c =>
            decide (0.01 ≤ E.dRP4 gp.p4 c) && decide (E.dRP4 gp.p4 c ≤ 0.4))).map
              P4.pt).sum)).sum / gp.pt) ∧
    (∀ (E : Oracle) (gp : GenPart) (selJets : List GenJet), |gp.pdgId| = 11 →
      genIsoOf E gp selJets =
        ((selJets.filter (fun gj => decide (E.dRP4 gp.p4 gj.p4 ≤ 0.7))).map
          (fun gj => ((gj.constituents.filter (fun c =>
            decide (0.01 ≤ E.dRP4 gp.p4 c) && decide (E.dRP4 gp.p4 c ≤ 0.3))).map
              P4.pt).sum)).sum / gp.pt) ∧
    (∀ (E : Oracle) (gp : GenPart), E.dRP4 gp.p4 gp.p4 = 0 →
      genIsoOf E gp [⟨gp.pt, gp.eta, gp.phi, gp.mass, gp.pdgId, [gp.p4]⟩] = 0) ∧
    (∀ (E : Oracle) (c : PFCand) (pfCands : List PFCand),
      pfIsoOf E c pfCands =
        ((pfCands.filter (fun k => decide (E.dRP4 c.p4 k.p4 ≤
          (if |c.pdgId| = 11 then 0.4 else 0.3)))).map PFCand.pt).sum / c.pt) ∧
    (∀ (E : Oracle) (c : PFCand), E.dRP4 c.p4 c.p4 = 0 → c.pt ≠ 0 →
      pfIsoOf E c [c] = 1) := by
  have hgate : ∀ (E : Oracle) (gp : GenPart) (gj : GenJet),
      genJetGate E gp gj = decide (E.dRP4 gp.p4 gj.p4 ≤ 0.7) := by
    intro E gp gj
    simp [genJetGate, ← decide_not, not_lt]
  refine ⟨?_, ?_, ?_, ?_, ?_⟩
  · intro E gp selJets h13
    rw [genIsoOf_eq_sum, List.filter_congr (fun gj _ => hgate E gp gj)]
    refine congrArg (fun x => x / gp.pt) (congrArg List.sum
      (List.map_congr_left (fun gj _ => ?_)))
    rw [List.filter_congr (fun c _ => genConstKeep_mu E gp c h13)]
  · intro E gp selJets h11
    rw [genIsoOf_eq_sum, List.filter_congr (fun gj _ => hgate E gp gj)]
    refine congrArg (fun x => x / gp.pt) (congrArg List.sum
      (List.map_congr_left (fun gj _ => ?_)))
    rw [List.filter_congr (fun c _ => genConstKeep_el E gp c h11)]
  · intro E gp h0
    have h0' : E.dRP4 ⟨gp.pt, gp.eta, gp.phi, gp.mass⟩
        ⟨gp.pt, gp.eta, gp.phi, gp.mass⟩ = 0 := h0
    rw [genIsoOf_eq_sum]
    norm_num [genJetGate, genConstKeep, GenJet.p4, GenPart.p4, h0']
  · intro E c pfCands
    rw [pfIsoOf_eq_sum]
    refine congrArg (fun x => x / c.pt) (congrArg List.sum
      (congrArg (List.map PFCand.pt) (List.filter_congr (fun k _ => ?_))))
    simp [← decide_not, not_lt]
  · intro E c h0 hpt
    rw [pfIsoOf_eq_sum]
    have hcone : ¬(E.dRP4 c.p4 c.p4 > (if |c.pdgId| = 11 then (0.4 : ℚ) else 0.3)) := by
      rw [h0]
      split <;> norm_num
    simp [hcone, div_self hpt]

/-! ## Muon tier assignment (C5) and no-vertex behaviour (C1) -/

/-- A forward muon (|eta| = 2.7 > 2.4) that passes the standard loose
predicate but carries no ME0 information. -/
def muonForwardStd : Muon :=
  { muonME0two with
    stdLoose := true
    isME0Muon := false
    chamberMatches := [] }

/-- Counterexample for C5: in the ntuple path a muon with |eta| > 2.4
passing the standard loose predicate but failing the ME0 matcher is NOT
assigned the loose tier, although the claimed rule
"standard-T OR (|eta| > 2.4 AND forward-T)" assigns it. -/
theorem c5_tier_assignment_counterexample :
    recoMuonLoose oracle0 muonForwardStd = false ∧
    (muonForwardStd.stdLoose ||
      (decide (|muonForwardStd.eta| > 2.4) &&
        isME0MuonSel oracle0 muonForwardStd 3 4 3 4 0.5)) = true := by
  have habs : |(27 / 10 : ℚ)| = 27 / 10 := abs_of_pos (by norm_num)
  constructor
  · rw [recoMuonLoose]
    norm_num [muonForwardStd, muonME0two, isME0MuonSel, habs]
  · norm_num [muonForwardStd, muonME0two]

/-- Claim C5 (amended): in the filter path a muon is assigned tier T iff
it passes standard-T OR (|eta| > 2.4 AND forward-T), the tight standard
leg being gated on a selected primary vertex; in the ntuple path the
standard leg is additionally gated on |eta| < 2.4 (a forward muon's
standard identification is ignored there). -/
theorem c5_tier_assignment_amended (E : Oracle) (m : Muon)
    (priVertex : Vertex) (prVtx : Int) (vertices : List Vertex) :
    (filterLoosePass E m = true ↔
      (m.stdLoose = true ∨ (2.4 < |m.eta| ∧ filterLooseME0 E m = true))) ∧
    (filterMediumPass E m priVertex = true ↔
      (m.stdMedium = true ∨ (2.4 < |m.eta| ∧ filterMediumME0 E m priVertex = true))) ∧
    (filterTightPass E m priVertex prVtx = true ↔
      (((prVtx : ℚ) > -0.5 ∧ m.stdTightAt priVertex = true) ∨
        (2.4 < |m.eta| ∧ filterTightME0 E m priVertex = true))) ∧
    (recoMuonLoose E m = true ↔
      ((|m.eta| < 2.4 ∧ m.stdLoose = true) ∨
        (2.4 < |m.eta| ∧ isME0MuonSel E m 3 4 3 4 0.5 = true))) ∧
    (recoMuonMedium E m = true ↔
      ((|m.eta| < 2.4 ∧ m.stdMedium = true) ∨
        (2.4 < |m.eta| ∧ isME0MuonSel E m 3 4 3 4 0.3 = true))) ∧
    (recoMuonTight E vertices priVertex m = true ↔
      ((|m.eta| < 2.4 ∧ 0 < vertices.length ∧ m.stdTightAt priVertex = true) ∨
        (2.4 < |m.eta| ∧ isME0MuonSel E m 3 4 3 4 0.1 = true))) := by
  refine ⟨?_, ?_, ?_, ?_, ?_, ?_⟩ <;>
    simp [filterLoosePass, filterMediumPass, filterTightPass, recoMuonLoose,
      recoMuonMedium, recoMuonTight, and_assoc]

/-- A fake vertex: no event vertex qualifies as primary. -/
def fakeVtx : Vertex := ⟨true, 0, 0, 0, 0⟩

/-- A central muon passing the filter's kinematic preselection
(pt 5 >= 2, |eta| = 0 <= 3). -/
def mProbe : Muon :=
  { pt := 5, eta := 0, phi := 0, mass := 0, p := 5, charge := 1,
    stdLoose := true, stdMedium := false, stdTightAt := fun _ => false,
    innerTrackNonnull := false, dxyAt := fun _ => 0, dzAt := fun _ => 0,
    numberOfValidPixelHits := 0, highPurity := false, isME0Muon := false,
    chamberMatches := [], puppiNoLepChHadIso := 0,
    puppiNoLepNeuHadIso := 0, puppiNoLepPhoIso := 0 }

/-- Claim C1 (code behaviour at the failing input): with no valid
primary vertex and a muon passing the kinematic preselection,
`PatMuonFilter::produce` evaluates `vertices->at(-1)`, which throws
(the `.error` case) — processing does NOT terminate normally — whereas
`MiniFromPat::recoAnalysis` returns early with nothing filled and
`MiniFromPat::analyze` still runs the generator-level extraction. -/
theorem c1_no_vertex_behaviour :
    produceFilter oracle0 [fakeVtx] [mProbe] = Except.error () ∧
    produceFilter oracle0 [] [mProbe] = Except.error () ∧
    recoAnalysisModel oracle0 [fakeVtx] [] [mProbe] [] [] [] GenOut.empty = none ∧
    (miniAnalyze oracle0 false [fakeVtx] [] [mProbe] [] [] [] [] []).1.isSome
      = true ∧
    (miniAnalyze oracle0 false [fakeVtx] [] [mProbe] [] [] [] [] []).2 = none :=
  ⟨rfl, rfl, rfl, rfl, rfl⟩
